import Mathlib

/-!
Verification development for the bytebase automatic-backup scheduling core
(`server/backup_runner.go`) and the project store (`store/project.go`).

The Go code is shallowly embedded: pure computations become Lean functions,
the entity store becomes an explicit `Store` state threaded through the
creation steps, and store/transport failures become an explicit fault
oracle.  Unix timestamps are modelled as `Nat` (seconds, all real clock
readings are nonnegative); Go's `int` ids are modelled as `Nat`.
-/

/-! ### Decimal rendering, the model of Go's `fmt.Sprintf("%v", n)` for a
nonnegative integer: the usual base-10 digit string. -/

/-- Fuel-driven digit accumulator: renders `n` in decimal in front of `acc`. -/
def natDecCore : Nat → Nat → List Char → List Char
  | 0, _, acc => acc
  | fuel + 1, n, acc =>
    if n < 10 then Nat.digitChar n :: acc
    else natDecCore fuel (n / 10) (Nat.digitChar (n % 10) :: acc)

/-- Decimal digit list of `n` (most significant first). -/
def natDecL (n : Nat) : List Char :=
  natDecCore (n + 1) n []

/-- Decimal string of `n`, the model of Go's `%v` formatting of a
nonnegative integer. -/
def natDec (n : Nat) : String :=
  ⟨natDecL n⟩

theorem natDecCore_fuel_eq (n : Nat) : ∀ f1 f2 acc, n < f1 → n < f2 →
    natDecCore f1 n acc = natDecCore f2 n acc := by
  induction n using Nat.strong_induction_on with
  | _ n ih =>
    intro f1 f2 acc h1 h2
    cases f1 with
    | zero => omega
    | succ f1 =>
      cases f2 with
      | zero => omega
      | succ f2 =>
        simp only [natDecCore]
        by_cases h : n < 10
        · simp [h]
        · simp only [if_neg h]
          have hlt : n / 10 < n := Nat.div_lt_self (by omega) (by omega)
          exact ih (n / 10) hlt f1 f2 _ (by omega) (by omega)

theorem natDecCore_append (n : Nat) : ∀ f acc, n < f →
    natDecCore f n acc = natDecCore f n [] ++ acc := by
  induction n using Nat.strong_induction_on with
  | _ n ih =>
    intro f acc hf
    cases f with
    | zero => omega
    | succ f =>
      simp only [natDecCore]
      by_cases h : n < 10
      · simp [h]
      · simp only [if_neg h]
        have hlt : n / 10 < n := Nat.div_lt_self (by omega) (by omega)
        rw [ih (n / 10) hlt f _ (by omega),
          ih (n / 10) hlt f [Nat.digitChar (n % 10)] (by omega),
          List.append_assoc]
        rfl

theorem natDecL_lt {n : Nat} (h : n < 10) : natDecL n = [Nat.digitChar n] := by
  simp [natDecL, natDecCore, h]

theorem natDecL_ge {n : Nat} (h : ¬ n < 10) :
    natDecL n = natDecL (n / 10) ++ [Nat.digitChar (n % 10)] := by
  have hlt : n / 10 < n := Nat.div_lt_self (by omega) (by omega)
  calc natDecL n
      = natDecCore n (n / 10) [Nat.digitChar (n % 10)] := by
        simp only [natDecL, natDecCore, if_neg h]
    _ = natDecCore (n / 10 + 1) (n / 10) [Nat.digitChar (n % 10)] :=
        natDecCore_fuel_eq (n / 10) n (n / 10 + 1) _ (by omega) (by omega)
    _ = natDecL (n / 10) ++ [Nat.digitChar (n % 10)] :=
        natDecCore_append (n / 10) (n / 10 + 1) _ (by omega)

theorem natDecL_ne_nil (n : Nat) : natDecL n ≠ [] := by
  by_cases h : n < 10
  · simp [natDecL_lt h]
  · simp [natDecL_ge h]

theorem digitChar_inj_lt : ∀ a, a < 10 → ∀ b, b < 10 →
    Nat.digitChar a = Nat.digitChar b → a = b := by decide

theorem natDecL_inj (n : Nat) : ∀ m, natDecL n = natDecL m → n = m := by
  induction n using Nat.strong_induction_on with
  | _ n ih =>
    intro m h
    by_cases hn : n < 10 <;> by_cases hm : m < 10
    · rw [natDecL_lt hn, natDecL_lt hm] at h
      exact digitChar_inj_lt n hn m hm (by simpa using h)
    · exfalso
      rw [natDecL_lt hn, natDecL_ge hm] at h
      have hlen := congrArg List.length h
      have hne := natDecL_ne_nil (m / 10)
      simp [List.length_append] at hlen
      cases hq : natDecL (m / 10) with
      | nil => exact hne hq
      | cons a l => rw [hq] at hlen; simp at hlen
    · exfalso
      rw [natDecL_ge hn, natDecL_lt hm] at h
      have hlen := congrArg List.length h
      have hne := natDecL_ne_nil (n / 10)
      simp [List.length_append] at hlen
      cases hq : natDecL (n / 10) with
      | nil => exact hne hq
      | cons a l => rw [hq] at hlen; simp at hlen
    · rw [natDecL_ge hn, natDecL_ge hm] at h
      have hinj := List.append_inj' h (by simp)
      have hmod : n % 10 = m % 10 :=
        digitChar_inj_lt (n % 10) (Nat.mod_lt _ (by omega)) (m % 10)
          (Nat.mod_lt _ (by omega)) (by simpa using hinj.2)
      have hdiv : n / 10 = m / 10 :=
        ih (n / 10) (Nat.div_lt_self (by omega) (by omega)) (m / 10) hinj.1
      omega

theorem natDec_inj {n m : Nat} (h : natDec n = natDec m) : n = m := by
  apply natDecL_inj
  simpa [natDec] using congrArg String.data h

/-! ### Replace-all, the model of Go's `strings.ReplaceAll` (non-overlapping,
leftmost-first replacement of every instance of the pattern). -/

/-- Fuel-driven replace-all over character lists.  At each position, if the
pattern starts here, emit the replacement and skip the pattern, else copy one
character.  Fuel bounds the number of scanned positions. -/
def replaceAllAux : Nat → List Char → List Char → List Char → List Char
  | _, [], _, _ => []
  | 0, s, _, _ => s
  | fuel + 1, c :: s, pat, rep =>
    if pat.isPrefixOf (c :: s) then
      rep ++ replaceAllAux fuel (List.drop (pat.length - 1) s) pat rep
    else
      c :: replaceAllAux fuel s pat rep

/-- Model of Go's `strings.ReplaceAll s pat rep` (for the nonempty patterns
used by the backup runner). -/
def stringReplaceAll (s pat rep : String) : String :=
  ⟨replaceAllAux s.data.length s.data pat.data rep.data⟩

/-! ### Entities and api constants.

Everything below lives in namespace `BB` so that entity names can match the
Go names (`Task` would otherwise clash with the core library).  Fields keep
the Go names (`ID`, `DatabaseId`, ...).  The field holding a Go `Type` is
written `Type_` because `Type` is reserved in Lean. -/

namespace BB

/-- Error codes of the `bytebase` error package used by this core. -/
inductive ErrCode where
  | ECONFLICT
  | ENOTFOUND
  | EINTERNAL
deriving DecidableEq

/-- Model of `bytebase.Error`: a code plus a message. -/
structure BBError where
  code : ErrCode
  message : String
deriving DecidableEq

structure Environment where
  ID : Nat
  Name : String
deriving DecidableEq

structure Instance where
  ID : Nat
  EnvironmentId : Nat
  Environment : Environment
deriving DecidableEq

structure Database where
  ID : Nat
  Name : String
  InstanceId : Nat
  Instance : Instance
deriving DecidableEq

/-- Model of `api.BackupSetting`, including the `Database` field that `Run`
fills in before launching a scheduling attempt. -/
structure BackupSetting where
  ID : Nat
  DatabaseId : Nat
  Hour : Nat
  DayOfWeek : Nat
  PathTemplate : String
  Database : Database
deriving DecidableEq

structure BackupCreate where
  CreatorId : Nat
  DatabaseId : Nat
  Name : String
  Status : String
  Type_ : String
  StorageBackend : String
  Path : String
  Comment : String
deriving DecidableEq

structure Backup where
  ID : Nat
  CreatorId : Nat
  DatabaseId : Nat
  Name : String
  Status : String
  Type_ : String
  StorageBackend : String
  Path : String
  Comment : String
deriving DecidableEq

structure PipelineCreate where
  Name : String
  CreatorId : Nat
deriving DecidableEq

structure Pipeline where
  ID : Nat
  Name : String
  CreatorId : Nat
deriving DecidableEq

structure StageCreate where
  Name : String
  EnvironmentId : Nat
  PipelineId : Nat
  CreatorId : Nat
deriving DecidableEq

structure Stage where
  ID : Nat
  Name : String
  EnvironmentId : Nat
  PipelineId : Nat
  CreatorId : Nat
deriving DecidableEq

structure TaskCreate where
  Name : String
  PipelineId : Nat
  StageId : Nat
  InstanceId : Nat
  DatabaseId : Option Nat
  Status : String
  Type_ : String
  Payload : String
  CreatorId : Nat
deriving DecidableEq

structure Task where
  ID : Nat
  Name : String
  PipelineId : Nat
  StageId : Nat
  InstanceId : Nat
  DatabaseId : Option Nat
  Status : String
  Type_ : String
  Payload : String
  CreatorId : Nat
deriving DecidableEq

/-- Modelled from the spec: the system identity (`api.SYSTEM_BOT_ID`, the
non-human creator of automated entities; the `api` package is external). -/
def SYSTEM_BOT_ID : Nat := 1

/-- Modelled from the spec: `api.BackupStatusPendingCreate` ("pending-create"). -/
def BackupStatusPendingCreate : String := "PENDING_CREATE"

/-- Modelled from the spec: `api.BackupTypeAutomatic` ("automatic"). -/
def BackupTypeAutomatic : String := "AUTOMATIC"

/-- Modelled from the spec: `api.BackupStorageBackendLocal`. -/
def BackupStorageBackendLocal : String := "LOCAL"

/-- Modelled from the spec: `api.TaskPending` ("pending"). -/
def TaskPending : String := "PENDING"

/-- Modelled from the spec: `api.TaskDatabaseBackup` ("database-backup"). -/
def TaskDatabaseBackup : String := "bb.task.database.backup"

/-- Modelled from the spec: `json.Marshal` of `api.TaskDatabaseBackupPayload`,
the serialized reference to the Backup's identifier (§4.3 step 5).  For this
struct the marshal never fails. -/
def taskDatabaseBackupPayload (backupID : Nat) : String :=
  "\x7b\"backupId\":" ++ natDec backupID ++ "\x7d"

/-! ### The Conflict-Aware Entity Store.

Modelled from the spec: the store is an external collaborator (§2, §6)
exposing `create` over Backup, Pipeline, Stage, Task with a distinguished
"already exists" failure for uniqueness violations — for Backup the unique
key is `(database, name)` (§3).  `Internal` (store/transport) failures are
injected through an explicit fault oracle so that the error paths of the
runner can be exercised. -/

structure Store where
  backups : List Backup
  pipelines : List Pipeline
  stages : List Stage
  tasks : List Task
  nextId : Nat
deriving DecidableEq

/-- Injected `Internal` store failures, one flag per creation step of a
scheduling attempt. -/
structure FaultOracle where
  backupFault : Bool
  pipelineFault : Bool
  stageFault : Bool
  taskFault : Bool
deriving DecidableEq

/-- Modelled from the spec: `BackupService.CreateBackup`.  Fails with
`ECONFLICT` when a backup with the same `(DatabaseId, Name)` already exists
(§4.2 contract), with `EINTERNAL` when the fault oracle says so, and
otherwise inserts the new backup. -/
def Store.createBackup (fault : Bool) (st : Store) (c : BackupCreate) :
    Except BBError Backup × Store :=
  if fault then
    (Except.error ⟨ErrCode.EINTERNAL, "internal store failure"⟩, st)
  else if st.backups.any fun b => b.DatabaseId == c.DatabaseId && b.Name == c.Name then
    (Except.error ⟨ErrCode.ECONFLICT, "backup already exists"⟩, st)
  else
    let b : Backup :=
      ⟨st.nextId, c.CreatorId, c.DatabaseId, c.Name, c.Status, c.Type_,
        c.StorageBackend, c.Path, c.Comment⟩
    (Except.ok b, { st with backups := st.backups ++ [b], nextId := st.nextId + 1 })

/-- Modelled from the spec: `PipelineService.CreatePipeline`. -/
def Store.createPipeline (fault : Bool) (st : Store) (c : PipelineCreate) :
    Except BBError Pipeline × Store :=
  if fault then
    (Except.error ⟨ErrCode.EINTERNAL, "internal store failure"⟩, st)
  else
    let p : Pipeline := ⟨st.nextId, c.Name, c.CreatorId⟩
    (Except.ok p, { st with pipelines := st.pipelines ++ [p], nextId := st.nextId + 1 })

/-- Modelled from the spec: `StageService.CreateStage`. -/
def Store.createStage (fault : Bool) (st : Store) (c : StageCreate) :
    Except BBError Stage × Store :=
  if fault then
    (Except.error ⟨ErrCode.EINTERNAL, "internal store failure"⟩, st)
  else
    let g : Stage := ⟨st.nextId, c.Name, c.EnvironmentId, c.PipelineId, c.CreatorId⟩
    (Except.ok g, { st with stages := st.stages ++ [g], nextId := st.nextId + 1 })

/-- Modelled from the spec: `TaskService.CreateTask`. -/
def Store.createTask (fault : Bool) (st : Store) (c : TaskCreate) :
    Except BBError Task × Store :=
  if fault then
    (Except.error ⟨ErrCode.EINTERNAL, "internal store failure"⟩, st)
  else
    let t : Task := ⟨st.nextId, c.Name, c.PipelineId, c.StageId, c.InstanceId,
      c.DatabaseId, c.Status, c.Type_, c.Payload, c.CreatorId⟩
    (Except.ok t, { st with tasks := st.tasks ++ [t], nextId := st.nextId + 1 })

/-! ### `scheduleBackupTask` (backup_runner.go, lines 91-157). -/

/-- The placeholder substituted into a backup path template. -/
def timePlaceholder : String := "\x7b\x7bTIME\x7d\x7d"

/-- Line 92: `key := fmt.Sprintf("auto-backup-%s-%v", uniqueKey,
backupSetting.DatabaseId)`. -/
def backupKeyOf (uniqueKey : String) (databaseId : Nat) : String :=
  "auto-backup-" ++ uniqueKey ++ "-" ++ natDec databaseId

/-- Lines 93-96: the destination path — the default
`environment-database-epoch.sql` pattern, overridden by the path template
(with `\x7b\x7bTIME\x7d\x7d` replaced by `epoch`) when the template is
nonempty. -/
def backupPathOf (backupSetting : BackupSetting) (epoch : Nat) : String :=
  if backupSetting.PathTemplate != "" then
    stringReplaceAll backupSetting.PathTemplate timePlaceholder (natDec epoch)
  else
    backupSetting.Database.Instance.Environment.Name ++ "-" ++
      backupSetting.Database.Name ++ "-" ++ natDec epoch ++ ".sql"

/-- Lines 97-106: the `api.BackupCreate` issued by a scheduling attempt. -/
def backupCreateOf (backupSetting : BackupSetting) (uniqueKey : String)
    (epoch : Nat) : BackupCreate :=
  { CreatorId := SYSTEM_BOT_ID
    DatabaseId := backupSetting.DatabaseId
    Name := backupKeyOf uniqueKey backupSetting.DatabaseId
    Status := BackupStatusPendingCreate
    Type_ := BackupTypeAutomatic
    StorageBackend := BackupStorageBackendLocal
    Path := backupPathOf backupSetting epoch
    Comment := "Automatic backup for database " ++ backupSetting.Database.Name ++
      " at " ++ natDec epoch }

/-- Lines 91-157: one scheduling attempt.  Returns the Go error (`some msg`)
or success (`none`), together with the store after the attempt.  A
`CreateBackup` failure with code `ECONFLICT` is returned as success
(lines 110-113); every other failure propagates with the source's message
prefix and stops the chain at that step. -/
def scheduleBackupTask (o : FaultOracle) (st : Store)
    (backupSetting : BackupSetting) (uniqueKey : String) (epoch : Nat) :
    Option String × Store :=
  let key := backupKeyOf uniqueKey backupSetting.DatabaseId
  let backupCreate := backupCreateOf backupSetting uniqueKey epoch
  match Store.createBackup o.backupFault st backupCreate with
  | (Except.error e, st1) =>
    if e.code = ErrCode.ECONFLICT then
      (none, st1)
    else
      (some ("failed to create backup: " ++ e.message), st1)
  | (Except.ok backup, st1) =>
    let payload := taskDatabaseBackupPayload backup.ID
    match Store.createPipeline o.pipelineFault st1
        { Name := key, CreatorId := backupCreate.CreatorId } with
    | (Except.error e, st2) => (some ("failed to create pipeline: " ++ e.message), st2)
    | (Except.ok createdPipeline, st2) =>
      match Store.createStage o.stageFault st2
          { Name := key
            EnvironmentId := backupSetting.Database.Instance.EnvironmentId
            PipelineId := createdPipeline.ID
            CreatorId := backupCreate.CreatorId } with
      | (Except.error e, st3) => (some ("failed to create stage: " ++ e.message), st3)
      | (Except.ok createdStage, st3) =>
        match Store.createTask o.taskFault st3
            { Name := key
              PipelineId := createdPipeline.ID
              StageId := createdStage.ID
              InstanceId := backupSetting.Database.InstanceId
              DatabaseId := some backupSetting.Database.ID
              Status := TaskPending
              Type_ := TaskDatabaseBackup
              Payload := payload
              CreatorId := backupCreate.CreatorId } with
        | (Except.error e, st4) => (some ("failed to create task: " ++ e.message), st4)
        | (Except.ok _, st4) => (none, st4)

/-! ### The scheduler loop `Run` (backup_runner.go, lines 32-89).

Timestamps are Unix seconds in UTC as `Nat`.  `time.Truncate(time.Hour)`,
`time.Hour()` and `time.Weekday()` are modelled arithmetically (the zero
reference of Go's `time` package is hour-aligned with the Unix epoch, and
1970-01-01 was a Thursday, weekday 4). -/

/-- Line 46: `time.Now().UTC().Truncate(time.Hour)` — the canonical time
bucket of a tick. -/
def bucketOf (now : Nat) : Nat :=
  now - now % 3600

/-- Model of `time.Time.Hour()` for a UTC Unix timestamp. -/
def hourOf (t : Nat) : Nat :=
  t / 3600 % 24

/-- Model of `int(time.Time.Weekday())` for a UTC Unix timestamp
(Sunday = 0; the Unix epoch fell on a Thursday). -/
def weekdayOf (t : Nat) : Nat :=
  (t / 86400 + 4) % 7

/-- Model of `api.BackupSettingsMatch` (lines 48-51). -/
structure BackupSettingsMatch where
  Hour : Nat
  DayOfWeek : Nat
deriving DecidableEq

/-- Modelled from the spec: `BackupService.FindBackupSettingsMatch`, the
store query selecting the settings whose `hour` and `day_of_week` equal the
match predicate's (§4.1, §6 `findBackupSettingsMatching`); its body is in
the external store collaborator. -/
def findBackupSettingsMatch (settings : List BackupSetting)
    (m : BackupSettingsMatch) : List BackupSetting :=
  settings.filter fun s => s.Hour == m.Hour && s.DayOfWeek == m.DayOfWeek

/-- The environment one tick of `Run` executes against: the stored settings,
whether the match query itself fails (in which case Go leaves `list` nil,
line 54-57), and `ComposeDatabaseByFind` as an abstract resolver. -/
structure TickEnv where
  settings : List BackupSetting
  matchFault : Bool
  composeDatabase : Nat → Except BBError Database

/-- A launched scheduling attempt: the goroutine of lines 73-80 receives the
composed setting, `uniqueKey`, and `epoch`. -/
abbrev LaunchedAttempt : Type :=
  BackupSetting × String × Nat

/-- Lines 46-57: the list the tick's fan-out loop ranges over — empty when
the match query fails, otherwise the matched settings for the truncated
hour's `Hour`/`Weekday`. -/
def matchedSettings (env : TickEnv) (now : Nat) : List BackupSetting :=
  let t := bucketOf now
  if env.matchFault then []
  else findBackupSettingsMatch env.settings ⟨hourOf t, weekdayOf t⟩

/-- Lines 45-81: one tick of `Run`'s loop.  Computes the truncated bucket
`t`, `uniqueKey := fmt.Sprintf("%v", t.Unix())`, `epoch :=
time.Now().UTC().Unix()` (NOT truncated), then for each matched setting
resolves the database — skipping the match when resolution fails (lines
64-70) — and launches one scheduling attempt per resolved match. -/
def runTick (env : TickEnv) (now : Nat) : List LaunchedAttempt :=
  let t := bucketOf now
  let uniqueKey := natDec t
  let epoch := now
  (matchedSettings env now).filterMap fun backupSetting =>
    match env.composeDatabase backupSetting.DatabaseId with
    | Except.error _ => none
    | Except.ok database =>
      some ({ backupSetting with Database := database }, uniqueKey, epoch)

/-- The loop of lines 34-85: ticks execute one after another; each tick's
fan-out is computed from its own environment and clock reading alone. -/
def runTicks : List (TickEnv × Nat) → List (List LaunchedAttempt)
  | [] => []
  | (env, now) :: rest => runTick env now :: runTicks rest

/-! ### The project store (`store/project.go`), the exemplar of `findOne`. -/

structure Project where
  ID : Nat
  RowStatus : String
  CreatorId : Nat
  CreatedTs : Nat
  UpdaterId : Nat
  UpdatedTs : Nat
  WorkspaceId : Nat
  Name : String
  Key : String
deriving DecidableEq

structure ProjectFind where
  ID : Option Nat
  RowStatus : Option String
  WorkspaceId : Option Nat
  PrincipalId : Option Nat
deriving DecidableEq

/-- A row of the `project_member` table, as used by the `PrincipalId`
membership subquery. -/
structure ProjectMember where
  ProjectId : Nat
  PrincipalId : Nat
deriving DecidableEq

/-- The tables `findProjectList`'s SQL reads. -/
structure ProjectDB where
  projects : List Project
  members : List ProjectMember
deriving DecidableEq

/-- The WHERE clause built by `findProjectList` (lines 180-193 of
store/project.go): a conjunction of one condition per set filter field. -/
def projectMatches (db : ProjectDB) (find : ProjectFind) (p : Project) : Bool :=
  (match find.ID with
    | none => true
    | some v => p.ID == v) &&
  (match find.RowStatus with
    | none => true
    | some v => p.RowStatus == v) &&
  (match find.WorkspaceId with
    | none => true
    | some v => p.WorkspaceId == v) &&
  (match find.PrincipalId with
    | none => true
    | some v => db.members.any fun m => m.ProjectId == p.ID && m.PrincipalId == v)

/-- `findProjectList`: the rows of `project` satisfying the WHERE clause, in
table order. -/
def findProjectList (db : ProjectDB) (find : ProjectFind) : List Project :=
  db.projects.filter (projectMatches db find)

/-- `FindProject` (lines 94-110): `ENOTFOUND` when nothing matches; with
more than one match a warning is logged (second component `true`) and the
first match is returned.  `txFault` injects the `BeginTx` failure path. -/
def FindProject (txFault : Bool) (db : ProjectDB) (find : ProjectFind) :
    Except BBError Project × Bool :=
  if txFault then
    (Except.error ⟨ErrCode.EINTERNAL, "failed to begin transaction"⟩, false)
  else
    match findProjectList db find with
    | [] => (Except.error ⟨ErrCode.ENOTFOUND, "project not found"⟩, false)
    | p :: rest => (Except.ok p, decide (0 < rest.length))

/-! ### Concrete fixtures used to evaluate the development on closed inputs. -/

def envProd : Environment := ⟨7, "prod"⟩

def instProd : Instance := ⟨5, 7, envProd⟩

def dbMydb : Database := ⟨42, "mydb", 5, instProd⟩

def dbOther : Database := ⟨43, "otherdb", 5, instProd⟩

/-- A backup setting for database 42 due at hour 1 of weekday 4 (the bucket
of Unix second 3600), with no path template. -/
def setting0 : BackupSetting := ⟨1, 42, 1, 4, "", dbMydb⟩

/-- Like `setting0` but with a path template containing the placeholder. -/
def settingT : BackupSetting := ⟨1, 42, 1, 4, "db-\x7b\x7bTIME\x7d\x7d.sql", dbMydb⟩

/-- A second setting, for database 43, due in the same bucket. -/
def setting43 : BackupSetting := ⟨2, 43, 1, 4, "", dbOther⟩

def store0 : Store := ⟨[], [], [], [], 100⟩

/-- A store already holding the automatic backup keyed
`auto-backup-3600-42` for database 42 (the bucket of second 3600). -/
def conflictStore : Store :=
  ⟨[⟨99, 1, 42, "auto-backup-3600-42", "PENDING_CREATE", "AUTOMATIC", "LOCAL",
    "prod-mydb-3600.sql", "Automatic backup for database mydb at 3600"⟩],
   [], [], [], 100⟩

def oracleOk : FaultOracle := ⟨false, false, false, false⟩

def oracleBackupFault : FaultOracle := ⟨true, false, false, false⟩

def oraclePipelineFault : FaultOracle := ⟨false, true, false, false⟩

def oracleStageFault : FaultOracle := ⟨false, false, true, false⟩

def oracleTaskFault : FaultOracle := ⟨false, false, false, true⟩

/-- A database resolver that knows database 42 only. -/
def composeOk : Nat → Except BBError Database := fun n =>
  if n == 42 then Except.ok dbMydb
  else Except.error ⟨ErrCode.ENOTFOUND, "database not found"⟩

def tickEnv0 : TickEnv := ⟨[setting0], false, composeOk⟩

def tickEnvT : TickEnv := ⟨[settingT], false, composeOk⟩

def tickEnvFault : TickEnv := ⟨[setting0], true, composeOk⟩

/-- Two matches in the same bucket; resolving database 43 fails. -/
def tickEnvPartial : TickEnv := ⟨[setting43, setting0], false, composeOk⟩

def projA : Project := ⟨1, "NORMAL", 1, 0, 1, 0, 1, "alpha", "ALP"⟩

def projB : Project := ⟨2, "NORMAL", 1, 0, 1, 0, 1, "beta", "BET"⟩

def pdb : ProjectDB := ⟨[projA, projB], [⟨1, 10⟩]⟩

/-- Matches both `projA` and `projB`. -/
def findByWorkspace : ProjectFind := ⟨none, none, some 1, none⟩

/-- Matches nothing. -/
def findMissing : ProjectFind := ⟨some 999, none, none, none⟩

end BB

/-! ### Theorems settling the claims (helper lemmas first). -/

namespace BB

theorem string_data_inj {s t : String} (h : s.data = t.data) : s = t := by
  cases s; cases t; exact congrArg String.mk h

theorem backupKeyOf_inj {uk1 uk2 : String} (db : Nat)
    (h : backupKeyOf uk1 db = backupKeyOf uk2 db) : uk1 = uk2 := by
  unfold backupKeyOf at h
  have hd := congrArg String.data h
  simp only [String.data_append, List.append_assoc] at hd
  exact string_data_inj (List.append_cancel_right (List.append_cancel_left hd))

theorem mem_runTick {env : TickEnv} {now : Nat} {a : LaunchedAttempt}
    (h : a ∈ runTick env now) :
    ∃ s ∈ matchedSettings env now, ∃ db,
      env.composeDatabase s.DatabaseId = Except.ok db ∧
      a = ({s with Database := db}, natDec (bucketOf now), now) := by
  simp only [runTick] at h
  rw [List.mem_filterMap] at h
  obtain ⟨s, hs, hsome⟩ := h
  cases hcd : env.composeDatabase s.DatabaseId with
  | error e => rw [hcd] at hsome; simp at hsome
  | ok db =>
    rw [hcd] at hsome
    simp only [Option.some.injEq] at hsome
    exact ⟨s, hs, db, hcd, hsome.symm⟩

theorem runTick_mem_intro {env : TickEnv} {now : Nat} {s : BackupSetting}
    {db : Database} (hs : s ∈ matchedSettings env now)
    (hok : env.composeDatabase s.DatabaseId = Except.ok db) :
    ({s with Database := db}, natDec (bucketOf now), now) ∈ runTick env now := by
  simp only [runTick]
  rw [List.mem_filterMap]
  exact ⟨s, hs, by rw [hok]⟩

/-- C2: within one UTC hour the derived backup key
`auto-backup-<bucketEpoch>-<databaseId>` is the same for a given database;
across different hours (hence different truncated buckets), or across
different day-of-week after truncation, the keys differ. -/
theorem c2_time_bucket_key_determinism (db n1 n2 : Nat) :
    (n1 / 3600 = n2 / 3600 →
      backupKeyOf (natDec (bucketOf n1)) db = backupKeyOf (natDec (bucketOf n2)) db) ∧
    (n1 / 3600 ≠ n2 / 3600 →
      backupKeyOf (natDec (bucketOf n1)) db ≠ backupKeyOf (natDec (bucketOf n2)) db) ∧
    (weekdayOf (bucketOf n1) ≠ weekdayOf (bucketOf n2) →
      backupKeyOf (natDec (bucketOf n1)) db ≠ backupKeyOf (natDec (bucketOf n2)) db) := by
  refine ⟨?_, ?_, ?_⟩
  · intro h
    have hb : bucketOf n1 = bucketOf n2 := by unfold bucketOf; omega
    rw [hb]
  · intro h hk
    have hb := natDec_inj (backupKeyOf_inj db hk)
    unfold bucketOf at hb; omega
  · intro h hk
    exact h (congrArg weekdayOf (natDec_inj (backupKeyOf_inj db hk)))

theorem c2_witness :
    backupKeyOf (natDec (bucketOf 3600)) 42 = backupKeyOf (natDec (bucketOf 3660)) 42 ∧
    backupKeyOf (natDec (bucketOf 3600)) 42 ≠ backupKeyOf (natDec (bucketOf 7200)) 42 :=
  ⟨(c2_time_bucket_key_determinism 42 3600 3660).1 (by decide),
   (c2_time_bucket_key_determinism 42 3600 7200).2.1 (by decide)⟩

/-- C5: the tick truncates `now` to the start of its UTC hour, and the match
query selects exactly the settings whose hour and day-of-week equal the
bucket's; an empty match list is a valid, non-error outcome (the tick simply
launches nothing). -/
theorem c5_match_resolver_selection (env : TickEnv) (now : Nat)
    (hm : env.matchFault = false) :
    (bucketOf now % 3600 = 0 ∧ bucketOf now ≤ now ∧ now < bucketOf now + 3600) ∧
    (∀ s, s ∈ matchedSettings env now ↔
      s ∈ env.settings ∧ s.Hour = hourOf (bucketOf now) ∧
        s.DayOfWeek = weekdayOf (bucketOf now)) ∧
    (matchedSettings env now = [] → runTick env now = []) := by
  refine ⟨⟨?_, ?_, ?_⟩, ?_, ?_⟩
  · unfold bucketOf; omega
  · unfold bucketOf; omega
  · unfold bucketOf; omega
  · intro s
    simp [matchedSettings, hm, findBackupSettingsMatch, List.mem_filter,
      and_assoc]
  · intro h
    simp [runTick, h]

theorem c5_witness :
    (setting0 ∈ matchedSettings tickEnv0 3700 ↔
      setting0 ∈ tickEnv0.settings ∧ setting0.Hour = hourOf (bucketOf 3700) ∧
        setting0.DayOfWeek = weekdayOf (bucketOf 3700)) ∧
    bucketOf 3700 % 3600 = 0 :=
  ⟨(c5_match_resolver_selection tickEnv0 3700 rfl).2.1 setting0,
   (c5_match_resolver_selection tickEnv0 3700 rfl).1.1⟩

/-- C1: when the Backup create of a scheduling attempt hits the distinguished
"already exists" conflict, `scheduleBackupTask` returns success with the
store untouched (no Pipeline, Stage or Task is created); any other Backup
creation failure is returned as an error, also leaving the store untouched. -/
theorem c1_conflict_short_circuit (o : FaultOracle) (st : Store)
    (s : BackupSetting) (uk : String) (e : Nat) :
    (o.backupFault = false →
      (st.backups.any fun b => b.DatabaseId == s.DatabaseId &&
        b.Name == backupKeyOf uk s.DatabaseId) = true →
      scheduleBackupTask o st s uk e = (none, st)) ∧
    (o.backupFault = true →
      ∃ msg, scheduleBackupTask o st s uk e = (some msg, st)) := by
  constructor
  · intro hf hc
    simp [scheduleBackupTask, Store.createBackup, hf, backupCreateOf, hc]
  · intro hf
    refine ⟨"failed to create backup: internal store failure", ?_⟩
    simp [scheduleBackupTask, Store.createBackup, hf]

theorem c1_witness :
    scheduleBackupTask oracleOk conflictStore setting0 (natDec 3600) 3700 =
      (none, conflictStore) ∧
    ∃ msg, scheduleBackupTask oracleBackupFault store0 setting0 (natDec 3600) 3700 =
      (some msg, store0) :=
  ⟨(c1_conflict_short_circuit oracleOk conflictStore setting0 (natDec 3600) 3700).1
      rfl (by decide),
   (c1_conflict_short_circuit oracleBackupFault store0 setting0 (natDec 3600) 3700).2
      rfl⟩

/-- C7: when the Backup is created but a later step (Pipeline, Stage or
Task creation) fails, the attempt returns an error, the created Backup
stays in the store (no rollback), and no creation step after the failing
one executes. -/
theorem c7_partial_failure_no_rollback (o : FaultOracle) (st : Store)
    (s : BackupSetting) (uk : String) (e : Nat)
    (hb : o.backupFault = false)
    (hc : (st.backups.any fun b => b.DatabaseId == s.DatabaseId &&
      b.Name == backupKeyOf uk s.DatabaseId) = false)
    (hfail : o.pipelineFault = true ∨ o.stageFault = true ∨ o.taskFault = true) :
    (∃ msg, (scheduleBackupTask o st s uk e).1 = some msg) ∧
    (scheduleBackupTask o st s uk e).2.backups = st.backups ++
      [⟨st.nextId, SYSTEM_BOT_ID, s.DatabaseId, backupKeyOf uk s.DatabaseId,
        BackupStatusPendingCreate, BackupTypeAutomatic, BackupStorageBackendLocal,
        backupPathOf s e,
        "Automatic backup for database " ++ s.Database.Name ++ " at " ++ natDec e⟩] ∧
    (o.pipelineFault = true →
      (scheduleBackupTask o st s uk e).2.pipelines = st.pipelines ∧
      (scheduleBackupTask o st s uk e).2.stages = st.stages ∧
      (scheduleBackupTask o st s uk e).2.tasks = st.tasks) ∧
    (o.pipelineFault = false → o.stageFault = true →
      (scheduleBackupTask o st s uk e).2.stages = st.stages ∧
      (scheduleBackupTask o st s uk e).2.tasks = st.tasks) ∧
    (o.pipelineFault = false → o.stageFault = false → o.taskFault = true →
      (scheduleBackupTask o st s uk e).2.tasks = st.tasks) := by
  cases hp : o.pipelineFault <;> cases hg : o.stageFault <;> cases ht : o.taskFault <;>
    first
      | (exfalso; revert hfail; simp [hp, hg, ht]; done)
      | simp [scheduleBackupTask, Store.createBackup, Store.createPipeline,
          Store.createStage, Store.createTask, hb, hc, hp, hg, ht, backupCreateOf]

theorem c7_witness :
    (∃ msg, (scheduleBackupTask oraclePipelineFault store0 setting0
      (natDec 3600) 3700).1 = some msg) ∧
    (scheduleBackupTask oraclePipelineFault store0 setting0
      (natDec 3600) 3700).2.pipelines = store0.pipelines :=
  ⟨(c7_partial_failure_no_rollback oraclePipelineFault store0 setting0
      (natDec 3600) 3700 rfl (by decide) (Or.inl rfl)).1,
   ((c7_partial_failure_no_rollback oraclePipelineFault store0 setting0
      (natDec 3600) 3700 rfl (by decide) (Or.inl rfl)).2.2.1 rfl).1⟩

/-- C8: a fully successful attempt appends exactly one Backup, one Pipeline,
one Stage and one Task; the Task is named after the backup key, typed
database-backup, pending, bound to the database's instance and database id,
linked to the Pipeline and Stage created by the same attempt, created by the
system identity, and its payload is the serialized reference to the created
Backup's identifier. -/
theorem c8_task_construction (o : FaultOracle) (st : Store)
    (s : BackupSetting) (uk : String) (e : Nat)
    (hb : o.backupFault = false) (hp : o.pipelineFault = false)
    (hg : o.stageFault = false) (ht : o.taskFault = false)
    (hc : (st.backups.any fun b => b.DatabaseId == s.DatabaseId &&
      b.Name == backupKeyOf uk s.DatabaseId) = false) :
    (scheduleBackupTask o st s uk e).1 = none ∧
    (scheduleBackupTask o st s uk e).2.backups = st.backups ++
      [⟨st.nextId, SYSTEM_BOT_ID, s.DatabaseId, backupKeyOf uk s.DatabaseId,
        BackupStatusPendingCreate, BackupTypeAutomatic, BackupStorageBackendLocal,
        backupPathOf s e,
        "Automatic backup for database " ++ s.Database.Name ++ " at " ++ natDec e⟩] ∧
    (scheduleBackupTask o st s uk e).2.pipelines = st.pipelines ++
      [⟨st.nextId + 1, backupKeyOf uk s.DatabaseId, SYSTEM_BOT_ID⟩] ∧
    (scheduleBackupTask o st s uk e).2.stages = st.stages ++
      [⟨st.nextId + 2, backupKeyOf uk s.DatabaseId,
        s.Database.Instance.EnvironmentId, st.nextId + 1, SYSTEM_BOT_ID⟩] ∧
    (scheduleBackupTask o st s uk e).2.tasks = st.tasks ++
      [⟨st.nextId + 3, backupKeyOf uk s.DatabaseId, st.nextId + 1, st.nextId + 2,
        s.Database.InstanceId, some s.Database.ID, TaskPending, TaskDatabaseBackup,
        taskDatabaseBackupPayload st.nextId, SYSTEM_BOT_ID⟩] := by
  simp [scheduleBackupTask, Store.createBackup, Store.createPipeline,
    Store.createStage, Store.createTask, hb, hp, hg, ht, hc, backupCreateOf]

theorem c8_witness :
    (scheduleBackupTask oracleOk store0 setting0 (natDec 3600) 3700).2.tasks =
      store0.tasks ++
      [⟨103, backupKeyOf (natDec 3600) setting0.DatabaseId, 101, 102,
        setting0.Database.InstanceId, some setting0.Database.ID, TaskPending,
        TaskDatabaseBackup, taskDatabaseBackupPayload 100, SYSTEM_BOT_ID⟩] :=
  (c8_task_construction oracleOk store0 setting0 (natDec 3600) 3700
    rfl rfl rfl rfl (by decide)).2.2.2.2

/-- C3 as stated is false: the attempt launched by a tick at second 3700
(bucket 3600) substitutes the raw tick epoch 3700 into the template, not the
bucket's epoch 3600, so the produced path differs from the
bucket-substituted path the claim prescribes. -/
theorem c3_counterexample :
    runTick tickEnvT 3700 = [(settingT, natDec 3600, 3700)] ∧
    (scheduleBackupTask oracleOk store0 settingT (natDec 3600) 3700).2.backups.map
      Backup.Path = ["db-3700.sql"] ∧
    stringReplaceAll settingT.PathTemplate timePlaceholder (natDec (bucketOf 3700)) =
      "db-3600.sql" ∧
    backupPathOf settingT 3700 ≠
      stringReplaceAll settingT.PathTemplate timePlaceholder (natDec (bucketOf 3700)) := by
  decide

/-- C3 amended: the destination path of an attempt launched at tick time
`now` substitutes `now` itself (the scheduler's untruncated clock capture,
line 53) into the template's time placeholder — not the bucket's epoch —
and with no template it is the default
`environment-database-<now>.sql` pattern. -/
theorem c3_path_substitution (env : TickEnv) (now : Nat)
    (s : BackupSetting) (uk : String) (e : Nat) (o : FaultOracle) (st : Store)
    (hmem : (s, uk, e) ∈ runTick env now)
    (hb : o.backupFault = false)
    (hc : (st.backups.any fun b => b.DatabaseId == s.DatabaseId &&
      b.Name == backupKeyOf uk s.DatabaseId) = false) :
    e = now ∧ uk = natDec (bucketOf now) ∧
    ∃ b, (scheduleBackupTask o st s uk e).2.backups = st.backups ++ [b] ∧
      b.Path = (if s.PathTemplate != "" then
          stringReplaceAll s.PathTemplate timePlaceholder (natDec now)
        else
          s.Database.Instance.Environment.Name ++ "-" ++ s.Database.Name ++ "-" ++
            natDec now ++ ".sql") := by
  obtain ⟨s0, hs0, db, hok, heq⟩ := mem_runTick hmem
  have h3 : e = now := congrArg (fun p => p.2.2) heq
  have h2 : uk = natDec (bucketOf now) := congrArg (fun p => p.2.1) heq
  refine ⟨h3, h2,
    ⟨st.nextId, SYSTEM_BOT_ID, s.DatabaseId, backupKeyOf uk s.DatabaseId,
      BackupStatusPendingCreate, BackupTypeAutomatic, BackupStorageBackendLocal,
      backupPathOf s e,
      "Automatic backup for database " ++ s.Database.Name ++ " at " ++ natDec e⟩,
    ?_, ?_⟩
  · simp only [scheduleBackupTask, Store.createBackup, hb, hc, backupCreateOf,
      Bool.false_eq_true, if_false]
    cases hp : o.pipelineFault <;> cases hg : o.stageFault <;> cases ht : o.taskFault <;>
      simp [Store.createPipeline, Store.createStage, Store.createTask, hp, hg, ht]
  · subst h3
    simp [backupPathOf]

theorem c3_witness :
    3700 = 3700 ∧ natDec (bucketOf 3700) = natDec (bucketOf 3700) ∧
    ∃ b, (scheduleBackupTask oracleOk store0 settingT
        (natDec (bucketOf 3700)) 3700).2.backups = store0.backups ++ [b] ∧
      b.Path = (if settingT.PathTemplate != "" then
          stringReplaceAll settingT.PathTemplate timePlaceholder (natDec 3700)
        else
          settingT.Database.Instance.Environment.Name ++ "-" ++
            settingT.Database.Name ++ "-" ++ natDec 3700 ++ ".sql") :=
  c3_path_substitution tickEnvT 3700 settingT (natDec (bucketOf 3700)) 3700
    oracleOk store0 (by decide) rfl (by decide)

/-- C4 as stated is false: two attempts for the same database launched by
ticks at seconds 3600 and 3660 — the same bucket — produce different
destination paths and different comments, because both embed the raw tick
epoch. -/
theorem c4_counterexample :
    bucketOf 3600 = bucketOf 3660 ∧
    runTick tickEnv0 3600 = [(setting0, natDec 3600, 3600)] ∧
    runTick tickEnv0 3660 = [(setting0, natDec 3600, 3660)] ∧
    (backupCreateOf setting0 (natDec 3600) 3600).Path ≠
      (backupCreateOf setting0 (natDec 3600) 3660).Path ∧
    (backupCreateOf setting0 (natDec 3600) 3600).Comment ≠
      (backupCreateOf setting0 (natDec 3600) 3660).Comment := by
  decide

/-- C4 amended: the destination path and comment depend on the setting, the
composed database, and the tick's raw epoch capture — so attempts launched
at the same tick instant agree on both, while attempts in the same bucket at
different instants may not. -/
theorem c4_path_comment_tick_determinism (env1 env2 : TickEnv) (now : Nat)
    (a1 a2 : LaunchedAttempt)
    (h1 : a1 ∈ runTick env1 now) (h2 : a2 ∈ runTick env2 now)
    (hsame : a1.1 = a2.1) :
    (backupCreateOf a1.1 a1.2.1 a1.2.2).Path =
      (backupCreateOf a2.1 a2.2.1 a2.2.2).Path ∧
    (backupCreateOf a1.1 a1.2.1 a1.2.2).Comment =
      (backupCreateOf a2.1 a2.2.1 a2.2.2).Comment := by
  obtain ⟨s1, -, db1, -, heq1⟩ := mem_runTick h1
  obtain ⟨s2, -, db2, -, heq2⟩ := mem_runTick h2
  have e1 : a1.2.2 = now := congrArg (fun p => p.2.2) heq1
  have e2 : a2.2.2 = now := congrArg (fun p => p.2.2) heq2
  constructor <;> simp [backupCreateOf, hsame, e1, e2]

theorem c4_witness :
    (backupCreateOf setting0 (natDec 3600) 3600).Path =
      (backupCreateOf setting0 (natDec 3600) 3600).Path ∧
    (backupCreateOf setting0 (natDec 3600) 3600).Comment =
      (backupCreateOf setting0 (natDec 3600) 3600).Comment :=
  c4_path_comment_tick_determinism tickEnv0 tickEnv0 3600
    (setting0, natDec 3600, 3600) (setting0, natDec 3600, 3600)
    (by decide) (by decide) rfl

/-- C6: every matched setting whose database resolves is launched, and every
launched attempt comes from a matched setting whose database resolved — so
one match's resolution failure removes only that match from the fan-out and
never prevents the other matches from being launched. -/
theorem c6_resolution_isolation (env : TickEnv) (now : Nat) :
    (∀ s ∈ matchedSettings env now, ∀ db,
      env.composeDatabase s.DatabaseId = Except.ok db →
      ({s with Database := db}, natDec (bucketOf now), now) ∈ runTick env now) ∧
    (∀ a ∈ runTick env now, ∃ s ∈ matchedSettings env now, ∃ db,
      env.composeDatabase s.DatabaseId = Except.ok db ∧
      a = ({s with Database := db}, natDec (bucketOf now), now)) :=
  ⟨fun _ hs _ hok => runTick_mem_intro hs hok, fun _ ha => mem_runTick ha⟩

theorem c6_witness :
    ({setting0 with Database := dbMydb}, natDec (bucketOf 3700), 3700) ∈
      runTick tickEnvPartial 3700 ∧
    setting43 ∈ matchedSettings tickEnvPartial 3700 ∧
    runTick tickEnvPartial 3700 = [(setting0, natDec (bucketOf 3700), 3700)] :=
  ⟨(c6_resolution_isolation tickEnvPartial 3700).1 setting0 (by decide) dbMydb rfl,
   by decide, by decide⟩

theorem runTicks_append (xs ys : List (TickEnv × Nat)) :
    runTicks (xs ++ ys) = runTicks xs ++ runTicks ys := by
  induction xs with
  | nil => rfl
  | cons x xs ih => cases x; simp [runTicks, ih]

/-- C9: a tick whose match query fails launches no scheduling attempt (the
fan-out list is empty), and the surrounding loop is unaffected: every tick
before and after the failing one still produces exactly its own fan-out. -/
theorem c9_tick_survives_match_failure (env : TickEnv) (now : Nat)
    (pre rest : List (TickEnv × Nat)) (hf : env.matchFault = true) :
    runTick env now = [] ∧
    runTicks (pre ++ (env, now) :: rest) =
      runTicks pre ++ [] :: runTicks rest := by
  have h0 : runTick env now = [] := by
    simp [runTick, matchedSettings, hf]
  exact ⟨h0, by rw [runTicks_append]; simp [runTicks, h0]⟩

theorem c9_witness :
    runTick tickEnvFault 3660 = [] ∧
    runTicks ([(tickEnv0, 3600)] ++ (tickEnvFault, 3660) :: [(tickEnv0, 3700)]) =
      runTicks [(tickEnv0, 3600)] ++ [] :: runTicks [(tickEnv0, 3700)] :=
  c9_tick_survives_match_failure tickEnvFault 3660
    [(tickEnv0, 3600)] [(tickEnv0, 3700)] rfl

/-- C10: `FindProject` returns the distinguished NotFound error when the
filter matches no project, and when it matches more than one it logs a
warning (second component `true`) while returning the first match. -/
theorem c10_find_one_semantics (dbp : ProjectDB) (find : ProjectFind) :
    (findProjectList dbp find = [] →
      FindProject false dbp find =
        (Except.error ⟨ErrCode.ENOTFOUND, "project not found"⟩, false)) ∧
    (∀ p l, findProjectList dbp find = p :: l → l ≠ [] →
      FindProject false dbp find = (Except.ok p, true)) := by
  constructor
  · intro h
    simp [FindProject, h]
  · intro p l h hne
    cases l with
    | nil => exact absurd rfl hne
    | cons a t => simp [FindProject, h]

theorem c10_witness :
    FindProject false pdb findMissing =
      (Except.error ⟨ErrCode.ENOTFOUND, "project not found"⟩, false) ∧
    FindProject false pdb findByWorkspace = (Except.ok projA, true) :=
  ⟨(c10_find_one_semantics pdb findMissing).1 (by decide),
   (c10_find_one_semantics pdb findByWorkspace).2 projA [projB]
     (by decide) (by decide)⟩

end BB
